import Mathlib

/-!
Verification of the Rex-AI claim quality and coverage-decision engine.

This file gives a shallow embedding, in Lean 4, of the two core
subsystems of the repository:

* the policy coverage / payout / auto-resolution engine
  (src/backend/src/policy/service.py), and
* the evidence completeness and consistency checker
  (src/src/fnol/checker.py),

together with theorems settling the frozen claims about them.

Conventions of the embedding:

* Python floats are modelled as exact rationals (ℚ).
* Python `Optional[T]` is modelled as `Option T`.
* Python dictionaries used as string-keyed maps are modelled as
  association lists, looked up with `List.lookup`.
* `datetime` values are modelled as integer timestamps (seconds); a
  field `incident_date` of a claim may instead carry a string that
  `datetime.fromisoformat` rejects, modelled by the `DateVal.unparseable`
  constructor.  An accepted date string carrying a non-UTC offset parses
  to an offset-aware datetime and makes the source raise TypeError at the
  comparison with the naive `datetime.utcnow()` (checker.py line 220);
  this error path is modelled by `DateValX` and `dateContradictionsX`,
  while the total model `check_claim` ranges over the naive space
  `DateVal`.  `datetime.utcnow()` is an external input to `check_claim`
  and is therefore passed explicitly as a `now : Int` parameter.
* The contradiction messages built by the checker are distinct format
  strings, one per trigger; they are modelled by the inductive type
  `Contradiction`, one constructor per message template, carrying the
  data interpolated into the message.
-/

namespace RexAI

/-- Modelled from the spec §3 (src/src/fnol/schema.py is not in the source
tree): per-field provenance metadata.  Only `confidence` is read by the
checker. -/
structure Provenance where
  source_modality : String
  confidence : ℚ
  raw_snippet : String
deriving DecidableEq, Repr

/-- Modelled from the spec §3: the incident-type enumeration.  `toVal`
below gives the `.value` string of the Python enum. -/
inductive IncidentType
  | misroute | delay | loss | prediction_failure | pricing_error
  | system_outage | data_error | unknown
deriving DecidableEq, Repr

/-- The `.value` string of an `IncidentType` (the Python enum values). -/
def IncidentType.toVal : IncidentType → String
  | .misroute => "misroute"
  | .delay => "delay"
  | .loss => "loss"
  | .prediction_failure => "prediction_failure"
  | .pricing_error => "pricing_error"
  | .system_outage => "system_outage"
  | .data_error => "data_error"
  | .unknown => "unknown"

/-- Modelled from the spec §3: the asset-type enumeration. -/
inductive AssetType
  | shipment | package | container | ai_model | sensor | route | unknown
deriving DecidableEq, Repr

/-- Modelled from the spec §3: the impact-severity enumeration. -/
inductive ImpactSeverity
  | minor | moderate | severe | critical | unknown
deriving DecidableEq, Repr

/-- An incident-date value of the restricted naive input space over which
the total model `check_claim` is defined: either a value carrying a
timestamp (a naive `datetime`, or an accepted date string with no
non-UTC offset, whose parsed timestamp is `t`), or a non-empty string the
parser rejects.  An empty string date is represented by `unparseable ""`
(it is falsy in Python and also skips the date contradiction check).
Accepted strings carrying a non-UTC offset are not representable here: on
them the source raises TypeError at the comparison of checker.py line
220 — see `DateValX` and `dateContradictionsX`. -/
inductive DateVal
  | parsed (t : Int)
  | unparseable (s : String)
deriving DecidableEq, Repr

/-- Modelled from the spec §3: claimant identity attached to a claim. -/
structure ClaimantInfo where
  name : Option String
  policy_number : Option String
deriving DecidableEq, Repr

/-- Modelled from the spec §3: the incident section of a claim. -/
structure IncidentInfo where
  incident_type : IncidentType
  incident_description : Option String
  incident_location : Option String
  incident_date : Option DateVal
  incident_type_provenance : Option Provenance
  incident_description_provenance : Option Provenance
  incident_location_provenance : Option Provenance
deriving DecidableEq, Repr

/-- Modelled from the spec §3: the operational-impact section of a claim. -/
structure OperationalImpactInfo where
  asset_type : AssetType
  impact_severity : ImpactSeverity
  estimated_liability_cost : Option ℚ
  system_component : Option String
  asset_type_provenance : Option Provenance
deriving DecidableEq, Repr

/-- Modelled from the spec §3: the evidence checklist of a claim. -/
structure EvidenceChecklist where
  has_system_logs : Bool
  system_log_count : Nat
  has_incident_report : Bool
  has_liability_assessment : Bool
deriving DecidableEq, Repr

/-- Modelled from the spec §3: the aggregate claim record consumed by the
checker and the coverage engine. -/
structure OperationalLiabilityClaim where
  claimant : ClaimantInfo
  incident : IncidentInfo
  operational_impact : OperationalImpactInfo
  evidence : EvidenceChecklist
deriving DecidableEq, Repr

/-- From src/backend/src/policy/schema.py: a policy rule for required
extra information during FNOL. -/
structure ExtraInfoRule where
  condition : String
  required_evidence : String
  question_hint : Option String
  required : Bool
deriving DecidableEq, Repr

/-- From src/backend/src/policy/schema.py: when to auto-resolve vs send
to human review. -/
structure ResolutionRules where
  auto_resolve_max_amount : ℚ
  require_name_match : Bool
  require_evidence_complete : Bool
  require_incident_type_covered : Bool
deriving DecidableEq, Repr

/-- From src/backend/src/policy/schema.py: an AI-logistics operational
liability policy (fields read by the coverage engine). -/
structure Policy where
  policy_number : String
  named_insured : String
  covered_incident_types : List String
  limit_amount : ℚ
  deductible : ℚ
  per_incident_type_limits : Option (List (String × ℚ))
  extra_info_rules : List ExtraInfoRule
  resolution_rules : ResolutionRules
deriving DecidableEq, Repr

/-! ## Python string primitives

Python strings are sequences of code points, so the Python string methods
used by the source are embedded as functions over `List Char` (ASCII
case mapping, which covers the data of this repository). -/

/-- The Python method `str.lower()` (ASCII case mapping). -/
def pyLower (s : String) : String :=
  String.mk (s.toList.map Char.toLower)

/-- The Python method `str.strip()`: drop leading and trailing whitespace. -/
def pyStrip (s : String) : String :=
  String.mk
    (((s.toList.dropWhile Char.isWhitespace).reverse.dropWhile
      Char.isWhitespace).reverse)

/-- The Python method `str.split()` with no argument, on a character list: split on
runs of whitespace, discarding empty words. -/
def splitWsChars (cs : List Char) : List (List Char) :=
  (cs.foldr
    (fun c acc =>
      if c.isWhitespace then [] :: acc
      else
        match acc with
        | [] => [[c]]
        | w :: rest => (c :: w) :: rest)
    []).filter (fun w => !w.isEmpty)

/-- The Python method `str.split()` with no argument. -/
def pySplitWs (s : String) : List String :=
  (splitWsChars s.toList).map String.mk

/-! ## Policy service helpers (src/backend/src/policy/service.py) -/

/-- From service.py `_normalize_name`: trim, lowercase, collapse internal
whitespace; `None` and the empty string normalize to the empty string. -/
def _normalize_name (name : Option String) : String :=
  match name with
  | none => ""
  | some s =>
    if s == "" then ""
    else String.intercalate (" ") (pySplitWs (pyLower (pyStrip s)))

/-- Substring test on lists of characters: true iff `needle` occurs as a
contiguous run inside the second list (the Python operator `in` on strings). -/
def listContainsSub (needle : List Char) : List Char → Bool
  | [] => needle.isEmpty
  | c :: t => needle.isPrefixOf (c :: t) || listContainsSub needle t

/-- The Python substring operator: `strContains hay needle` is
`needle in hay`. -/
def strContains (hay needle : String) : Bool :=
  listContainsSub needle.toList hay.toList

/-- From service.py `_claim_incident_type`: the incident type of the claim
as a string (the `.value` of the enum). -/
def _claim_incident_type (claim : OperationalLiabilityClaim) : String :=
  claim.incident.incident_type.toVal

/-- From service.py `_claim_estimated_cost`. -/
def _claim_estimated_cost (claim : OperationalLiabilityClaim) : Option ℚ :=
  claim.operational_impact.estimated_liability_cost

/-- From service.py `_claimant_name`. -/
def _claimant_name (claim : OperationalLiabilityClaim) : Option String :=
  claim.claimant.name

/-- From service.py `PolicyService.verify_claimant_name`: false when the
field `named_insured` of the policy is falsy; otherwise normalize both names and
match if equal or one is a substring of the other; a claimant whose
normalization is empty never matches. -/
def verify_claimant_name (policy : Policy) (claimant_name : Option String) : Bool :=
  if policy.named_insured == "" then false
  else
    let a := _normalize_name (some policy.named_insured)
    let b := _normalize_name claimant_name
    if b == "" then false
    else a == b || strContains a b || strContains b a

/-- The `cap` local of `compute_payout` (service.py lines 125-127):
`limit_amount`, lowered to `min limit_amount (per_incident_type_limits
incident_type)` when a per-type limit is defined for the incident type. -/
def applicable_cap (policy : Policy) (incident_type : String) : ℚ :=
  match policy.per_incident_type_limits with
  | some limits =>
    match limits.lookup incident_type with
    | some l => min policy.limit_amount l
    | none => policy.limit_amount
  | none => policy.limit_amount

/-- From service.py `PolicyService.compute_payout`: `none` when the
incident type is not covered or the cost is absent or negative, otherwise
`min (max 0 (cost - deductible)) cap`, where `cap` is `applicable_cap`. -/
def compute_payout (claim : OperationalLiabilityClaim) (policy : Policy) :
    Option ℚ :=
  let incident_type := _claim_incident_type claim
  if incident_type ∈ policy.covered_incident_types then
    match _claim_estimated_cost claim with
    | none => none
    | some cost =>
      if cost < 0 then none
      else
        some (min (max 0 (cost - policy.deductible))
          (applicable_cap policy incident_type))
  else none

/-! ## Condition evaluation in `get_required_extra_info`

The rule conditions are free-text strings probed with `re.search` for two
fixed patterns.  The two regexes are embedded directly: since in each
pattern every `\s*` is followed by a literal that is not whitespace, and
the trailing `(\w+)` / `(\d+)` groups are final, greedy matching without
backtracking is exact. -/

/-- Character class `\w` of the regexes (ASCII word character). -/
def isWordChar (c : Char) : Bool := c.isAlphanum || c == '_'

/-- Try the regex pattern `incident_type\s*==\s*(\w+)` anchored at the
head of the character list, returning the captured group. -/
def matchIncidentTypeEqAt (cs : List Char) : Option String :=
  let lit := "incident_type".toList
  if lit.isPrefixOf cs then
    let r1 := (cs.drop lit.length).dropWhile Char.isWhitespace
    if ['=', '='].isPrefixOf r1 then
      let r2 := (r1.drop 2).dropWhile Char.isWhitespace
      let w := r2.takeWhile isWordChar
      if w.isEmpty then none else some (String.mk w)
    else none
  else none

/-- Leftmost search of the pattern `incident_type\s*==\s*(\w+)`
(re.search), returning the captured group. -/
def searchIncidentTypeEq : List Char → Option String
  | [] => none
  | c :: t =>
    match matchIncidentTypeEqAt (c :: t) with
    | some w => some w
    | none => searchIncidentTypeEq t

/-- Digits-to-number conversion (the Python `int` on a digit string). -/
def digitsToNat (ds : List Char) : Nat :=
  ds.foldl (fun a c => a * 10 + (c.toNat - '0'.toNat)) 0

/-- Try the regex pattern `>\s*(\d+)` anchored at the head of the
character list, returning the captured number. -/
def matchGtNatAt : List Char → Option Nat
  | '>' :: t =>
    let r := t.dropWhile Char.isWhitespace
    let ds := r.takeWhile Char.isDigit
    if ds.isEmpty then none else some (digitsToNat ds)
  | _ => none

/-- Leftmost search of the pattern `>\s*(\d+)` (re.search), returning the
captured number. -/
def searchGtNat : List Char → Option Nat
  | [] => none
  | c :: t =>
    match matchGtNatAt (c :: t) with
    | some n => some n
    | none => searchGtNat t

/-- The condition dispatch inside `get_required_extra_info`: given the
lowercased condition string, the incident type of the claim and its cost
(0 when absent), decide whether the rule is skipped on account of its
condition (`continue` in the loop). -/
def condSkips (cond : String) (incident_type : String) (cost : ℚ) : Bool :=
  if strContains cond ("incident_type") && strContains cond ("==") then
    match searchIncidentTypeEq cond.toList with
    | some w => incident_type != pyLower w
    | none => false
  else if strContains cond ("estimated_liability_cost") || strContains cond ("cost") then
    match searchGtNat cond.toList with
    | some n => decide (cost ≤ (n : ℚ))
    | none => false
  else false

/-- The already-present-evidence skip inside `get_required_extra_info`:
true when the (lowercased) `required_evidence` of the rule names a piece of
evidence the claim already has. -/
def evidenceAlreadyPresent (ev : EvidenceChecklist) (required_evidence : String) :
    Bool :=
  let req := pyLower required_evidence
  (req == "system_logs" && ev.has_system_logs)
  || (req == "incident_report" && ev.has_incident_report)
  || (req == "liability_assessment" && ev.has_liability_assessment)

/-- The prompt a surviving rule contributes: its `question_hint` when
truthy, else a generated sentence from its `required_evidence`. -/
def promptOf (rule : ExtraInfoRule) : String :=
  let generated :=
    "Please provide "
      ++ String.mk (rule.required_evidence.toList.map
        (fun c => if c = '_' then ' ' else c))
      ++ "."
  match rule.question_hint with
  | some h => if h == "" then generated else h
  | none => generated

/-- The loop body of `get_required_extra_info` over the rule list. -/
def gatherRules (incident_type : String) (cost : ℚ) (ev : EvidenceChecklist) :
    List ExtraInfoRule → List String
  | [] => []
  | rule :: rest =>
    let tail := gatherRules incident_type cost ev rest
    if !rule.required then tail
    else if condSkips (pyLower rule.condition) incident_type cost then tail
    else if evidenceAlreadyPresent ev rule.required_evidence then tail
    else promptOf rule :: tail

/-- From service.py `PolicyService.get_required_extra_info`: the list of
prompts for evidence still needed, walking `policy.extra_info_rules` in
order. -/
def get_required_extra_info (claim : OperationalLiabilityClaim)
    (policy : Policy) : List String :=
  let incident_type := _claim_incident_type claim
  let cost := (_claim_estimated_cost claim).getD 0
  gatherRules incident_type cost claim.evidence policy.extra_info_rules

/-- From service.py `PolicyService.can_auto_resolve`. -/
def can_auto_resolve (claim : OperationalLiabilityClaim) (policy : Policy)
    (name_verified : Bool) (fraud_flagged : Bool) : Bool :=
  if fraud_flagged then false
  else if policy.resolution_rules.require_name_match && !name_verified then false
  else if policy.resolution_rules.require_incident_type_covered
      && !(policy.covered_incident_types.contains (_claim_incident_type claim)) then
    false
  else if policy.resolution_rules.auto_resolve_max_amount
      < (_claim_estimated_cost claim).getD 0 then false
  else if policy.resolution_rules.require_evidence_complete
      && !(get_required_extra_info claim policy).isEmpty then false
  else true

/-! ## Completeness and consistency checker (src/src/fnol/checker.py) -/

/-- Python truthiness-plus-strip test used by the tier items: the
optional string is present and non-empty after stripping. -/
def presentTrimmed : Option String → Bool
  | none => false
  | some s => !(pyStrip s == "")

/-- Python truthiness of an optional string (no trimming). -/
def truthyStr : Option String → Bool
  | none => false
  | some s => !(s == "")

/-- Low-confidence test on an optional provenance record: present with
confidence below the 0.3 threshold. -/
def lowConf : Option Provenance → Bool
  | none => false
  | some p => decide (p.confidence < (0.3 : ℚ))

/-- One contradiction message of the checker; one constructor per format
string in checker.py, carrying the data interpolated into the message. -/
inductive Contradiction
  | lowConfIncidentType
  | lowConfAssetType
  | lowConfDescription
  | severityCritLowCost (cost : ℚ)
  | severitySevereLowCost (cost : ℚ)
  | severityMinorHighCost (cost : ℚ)
  | descriptionWithoutLogs
  | highCostNoAssessment (cost : ℚ)
  | dateInFuture (t : Int)
  | dateTooOld (t : Int)
  | lowConfLocation
deriving DecidableEq, Repr

/-- Two years expressed in the timestamp unit (seconds):
`timedelta(days=730)`. -/
def twoYears : Int := 730 * 86400

/-- The incident-date contradiction block of checker.py over the
restricted naive input space (where the comparison at line 220
typechecks): a truthy date is parsed when it is a string; an unparseable
string yields no flag (and an empty string date is falsy, also yielding
no flag); a parsed naive timestamp strictly in the future, or strictly
older than 730 days, each yield one flag.  The full input space,
including the offset-aware error path of the source, is modelled by
`dateContradictionsX`. -/
def dateContradictions : Option DateVal → Int → List Contradiction
  | some (.parsed t), now =>
    if now < t then [.dateInFuture t]
    else if t < now - twoYears then [.dateTooOld t]
    else []
  | some (.unparseable _), _ => []
  | none, _ => []

/-- An incident-date value over the full input space of checker.py,
including date strings `datetime.fromisoformat` accepts that carry a
non-UTC offset and hence parse to offset-aware datetimes (the replace
chain of checker.py line 214 strips only `Z` and `+00:00` before
parsing). -/
inductive DateValX
  | naive (t : Int)
  | aware (t : Int)
  | unparseable (s : String)
deriving DecidableEq, Repr

/-- The incident-date contradiction block of checker.py (lines 207-223)
over the full input space, as a fallible computation: an offset-aware
incident date reaches the comparison of line 220 against the naive
`datetime.utcnow()` and raises TypeError (the try/except of lines
213-217 guards only the parse, not the comparison); a naive timestamp is
compared as in `dateContradictions`; an unparseable string yields no
flag; an absent date skips the block. -/
def dateContradictionsX :
    Option DateValX → Int → Except String (List Contradiction)
  | some (.naive t), now =>
    .ok (if now < t then [.dateInFuture t]
      else if t < now - twoYears then [.dateTooOld t]
      else [])
  | some (.aware _), _ =>
    .error "TypeError: cannot compare offset-naive and offset-aware datetimes"
  | some (.unparseable _), _ => .ok []
  | none, _ => .ok []

/-- From checker.py `CheckReport` (contradiction messages modelled by
`Contradiction`). -/
structure CheckReport where
  completeness_score : ℚ
  missing_required_evidence : List String
  contradictions : List Contradiction
  recommended_questions : List String
deriving DecidableEq, Repr

/-- Tier-1 item satisfaction: system logs (flag set and at least one
log), non-empty trimmed description, known incident type, known asset
type (checker.py lines 83-112). -/
def satLogs (claim : OperationalLiabilityClaim) : Bool :=
  claim.evidence.has_system_logs && decide (1 ≤ claim.evidence.system_log_count)

/-- Tier-1 item: non-empty trimmed incident description. -/
def satDesc (claim : OperationalLiabilityClaim) : Bool :=
  presentTrimmed claim.incident.incident_description

/-- Tier-1 item: incident type not unknown. -/
def satType (claim : OperationalLiabilityClaim) : Bool :=
  decide (claim.incident.incident_type ≠ IncidentType.unknown)

/-- Tier-1 item: asset type not unknown. -/
def satAsset (claim : OperationalLiabilityClaim) : Bool :=
  decide (claim.operational_impact.asset_type ≠ AssetType.unknown)

/-- Tier-2 item: non-empty trimmed incident location. -/
def satLoc (claim : OperationalLiabilityClaim) : Bool :=
  presentTrimmed claim.incident.incident_location

/-- Tier-2 item: estimated liability cost present. -/
def satCost (claim : OperationalLiabilityClaim) : Bool :=
  (claim.operational_impact.estimated_liability_cost).isSome

/-- Tier-2 item: incident date present (`is not None`; an unparseable
date string still counts as present here). -/
def satDate (claim : OperationalLiabilityClaim) : Bool :=
  (claim.incident.incident_date).isSome

/-- Tier-3 item: liability assessment present. -/
def satAssess (claim : OperationalLiabilityClaim) : Bool :=
  claim.evidence.has_liability_assessment

/-- Tier-3 item: non-empty trimmed system component. -/
def satComp (claim : OperationalLiabilityClaim) : Bool :=
  presentTrimmed claim.operational_impact.system_component

/-- Tier-3 item: at least two system logs. -/
def satMulti (claim : OperationalLiabilityClaim) : Bool :=
  decide (2 ≤ claim.evidence.system_log_count)

/-- The `tier1_present` list built by checker.py. -/
def tier1_present (claim : OperationalLiabilityClaim) : List String :=
  (if satLogs claim then ["system_logs"] else [])
  ++ (if satDesc claim then ["incident_description"] else [])
  ++ (if satType claim then ["incident_type"] else [])
  ++ (if satAsset claim then ["asset_type"] else [])

/-- The `tier2_present` list built by checker.py. -/
def tier2_present (claim : OperationalLiabilityClaim) : List String :=
  (if satLoc claim then ["incident_location"] else [])
  ++ (if satCost claim then ["estimated_liability_cost"] else [])
  ++ (if satDate claim then ["incident_date"] else [])

/-- The `tier3_present` list built by checker.py. -/
def tier3_present (claim : OperationalLiabilityClaim) : List String :=
  (if satAssess claim then ["liability_assessment"] else [])
  ++ (if satComp claim then ["system_component"] else [])
  ++ (if satMulti claim then ["multiple_logs"] else [])

/-- The `missing_evidence` list built by checker.py: canonical item names
appended in item order as the tier checks run. -/
def missing_evidence (claim : OperationalLiabilityClaim) : List String :=
  (if satLogs claim then [] else ["system_logs"])
  ++ (if satDesc claim then [] else ["incident_description"])
  ++ (if satType claim then [] else ["incident_type"])
  ++ (if satAsset claim then [] else ["asset_type"])
  ++ (if satLoc claim then [] else ["incident_location"])
  ++ (if satCost claim then [] else ["estimated_liability_cost"])
  ++ (if satDate claim then [] else ["incident_date"])
  ++ (if satAssess claim then [] else ["liability_assessment"])
  ++ (if satComp claim then [] else ["system_component"])
  ++ (if satMulti claim then [] else ["multiple_logs"])

/-- Tier 1 score (checker.py line 165): satisfied count over 4 items,
weighted 0.6.  The `if tier1_items else 0.0` guard of the source is dead
(the item list is a non-empty constant) and is not modelled. -/
def tier1_score (claim : OperationalLiabilityClaim) : ℚ :=
  (((tier1_present claim).length : ℚ) / (4 : ℚ)) * (0.6 : ℚ)

/-- Tier 2 score (checker.py line 166): satisfied count over 3 items,
weighted 0.3. -/
def tier2_score (claim : OperationalLiabilityClaim) : ℚ :=
  (((tier2_present claim).length : ℚ) / (3 : ℚ)) * (0.3 : ℚ)

/-- Tier 3 score (checker.py line 167): satisfied count over 3 items,
weighted 0.1. -/
def tier3_score (claim : OperationalLiabilityClaim) : ℚ :=
  (((tier3_present claim).length : ℚ) / (3 : ℚ)) * (0.1 : ℚ)

/-- The contradiction-detection block of checker.py (lines 175-228), in
source order. -/
def contradictionsOf (claim : OperationalLiabilityClaim) (now : Int) :
    List Contradiction :=
  let sev := claim.operational_impact.impact_severity
  let cost? := claim.operational_impact.estimated_liability_cost
  (if lowConf claim.incident.incident_type_provenance
    then [.lowConfIncidentType] else [])
  ++ (if lowConf claim.operational_impact.asset_type_provenance
    then [.lowConfAssetType] else [])
  ++ (if lowConf claim.incident.incident_description_provenance
    then [.lowConfDescription] else [])
  ++ (match cost? with
    | some c =>
      if sev == ImpactSeverity.critical && decide (c < 5000)
      then [.severityCritLowCost c] else []
    | none => [])
  ++ (match cost? with
    | some c =>
      if sev == ImpactSeverity.severe && decide (c < 1000)
      then [.severitySevereLowCost c] else []
    | none => [])
  ++ (match cost? with
    | some c =>
      if sev == ImpactSeverity.minor && decide ((50000 : ℚ) < c)
      then [.severityMinorHighCost c] else []
    | none => [])
  ++ (if !claim.evidence.has_system_logs
        && truthyStr claim.incident.incident_description
    then [.descriptionWithoutLogs] else [])
  ++ (match cost? with
    | some c =>
      if decide ((25000 : ℚ) < c) && !claim.evidence.has_liability_assessment
      then [.highCostNoAssessment c] else []
    | none => [])
  ++ dateContradictions claim.incident.incident_date now
  ++ (if truthyStr claim.incident.incident_location
        && lowConf claim.incident.incident_location_provenance
    then [.lowConfLocation] else [])

/-- The recommended-question block of checker.py (lines 234-264), before
the cap at three questions. -/
def questionsOf (claim : OperationalLiabilityClaim) : List String :=
  let missing := missing_evidence claim
  (if missing.contains ("system_logs")
    then ["Can you provide system logs or telemetry data from the incident?"]
    else [])
  ++ (if missing.contains ("incident_description")
    then ["Can you describe what happened and how the operational failure occurred?"]
    else [])
  ++ (if missing.contains ("incident_type")
        || (claim.incident.incident_type == IncidentType.unknown
          || lowConf claim.incident.incident_type_provenance)
    then ["Can you clarify the type of incident? (misroute, delay, loss, data error, prediction failure, pricing error, system outage)"]
    else [])
  ++ (if missing.contains ("asset_type")
    then ["What type of asset was affected? (shipment, package, container, AI model, sensor, route, etc.)"]
    else [])
  ++ (if missing.contains ("incident_location")
    then ["Can you provide the system node, hub ID, or facility where the incident occurred?"]
    else [])
  ++ (if missing.contains ("incident_date")
    then ["When did the incident occur?"]
    else [])
  ++ (if missing.contains ("estimated_liability_cost")
    then ["Do you have a liability estimate or expected cost range?"]
    else [])
  ++ (if claim.operational_impact.impact_severity == ImpactSeverity.unknown
    then ["How would you describe the impact severity? (minor, moderate, severe, or critical)"]
    else [])

/-- From checker.py `check_claim`.  `now` is the value of
`datetime.utcnow()` at the invocation, passed explicitly. -/
def check_claim (claim : OperationalLiabilityClaim) (now : Int) : CheckReport :=
  { completeness_score := tier1_score claim + tier2_score claim + tier3_score claim
    missing_required_evidence := missing_evidence claim
    contradictions := contradictionsOf claim now
    recommended_questions := (questionsOf claim).take 3 }

/-! ## Fixtures

Concrete claim and policy records used to instantiate the theorems, built
after the seeded examples of the spec (§8). -/

/-- Shorthand for an absent provenance record. -/
def noProv : Option Provenance := none

/-- Fixture: the delay claim of spec §8 property 7 (cost 3000, one log,
description, location and date set). -/
def exClaimBase : OperationalLiabilityClaim :=
  { claimant := { name := some "Acme Corp", policy_number := some "987654" }
    incident :=
      { incident_type := .delay
        incident_description := some "trucks late"
        incident_location := some "hub-7"
        incident_date := some (.parsed 1000)
        incident_type_provenance := noProv
        incident_description_provenance := noProv
        incident_location_provenance := noProv }
    operational_impact :=
      { asset_type := .shipment
        impact_severity := .moderate
        estimated_liability_cost := some 3000
        system_component := none
        asset_type_provenance := noProv }
    evidence :=
      { has_system_logs := true
        system_log_count := 1
        has_incident_report := false
        has_liability_assessment := false } }

/-- Fixture: the policy of spec §8 property 7 (covers delay, limit 10000,
deductible 500, auto-resolve up to 5000, no extra-info rules). -/
def exPolicyDelay : Policy :=
  { policy_number := "POL-TT-987654"
    named_insured := "Acme Corp"
    covered_incident_types := ["delay", "misroute"]
    limit_amount := 10000
    deductible := 500
    per_incident_type_limits := none
    extra_info_rules := []
    resolution_rules :=
      { auto_resolve_max_amount := 5000
        require_name_match := true
        require_evidence_complete := true
        require_incident_type_covered := true } }

/-- Fixture: a policy whose `named_insured` is the empty string. -/
def exPolicyNoInsured : Policy := { exPolicyDelay with named_insured := "" }

/-- Replace the estimated liability cost of a claim, keeping every other field. -/
def setClaimCost (claim : OperationalLiabilityClaim) (c : Option ℚ) :
    OperationalLiabilityClaim :=
  { claim with operational_impact :=
      { claim.operational_impact with estimated_liability_cost := c } }

/-- Fixture: the extra-info rule of spec §8 property 9. -/
def exRulePF : ExtraInfoRule :=
  { condition := "incident_type == prediction_failure"
    required_evidence := "liability_assessment"
    question_hint := none
    required := true }

/-- Fixture: a policy carrying only the prediction_failure rule. -/
def exPolicyPF : Policy :=
  { exPolicyDelay with
    covered_incident_types := ["prediction_failure", "delay"]
    extra_info_rules := [exRulePF] }

/-- Fixture: the base claim with incident type prediction_failure (and no
liability assessment). -/
def exClaimPF : OperationalLiabilityClaim :=
  { exClaimBase with incident :=
      { exClaimBase.incident with incident_type := .prediction_failure } }

/-- Fixture: a required rule with a free-text condition matching neither
supported pattern. -/
def exRuleVague : ExtraInfoRule :=
  { condition := "please review manually"
    required_evidence := "incident_report"
    question_hint := none
    required := true }

/-- Fixture: a claim satisfying all four tier-1 items and nothing else. -/
def exClaimTier1 : OperationalLiabilityClaim :=
  { claimant := { name := some "Acme Corp", policy_number := some "987654" }
    incident :=
      { incident_type := .delay
        incident_description := some "trucks late"
        incident_location := none
        incident_date := none
        incident_type_provenance := noProv
        incident_description_provenance := noProv
        incident_location_provenance := noProv }
    operational_impact :=
      { asset_type := .shipment
        impact_severity := .moderate
        estimated_liability_cost := none
        system_component := none
        asset_type_provenance := noProv }
    evidence :=
      { has_system_logs := true
        system_log_count := 1
        has_incident_report := false
        has_liability_assessment := false } }

/-- Fixture: tier-1 and tier-2 items satisfied, tier-3 items not. -/
def exClaimTier12 : OperationalLiabilityClaim :=
  { exClaimTier1 with
    incident := { exClaimTier1.incident with
      incident_location := some "hub-7"
      incident_date := some (.parsed 100) }
    operational_impact := { exClaimTier1.operational_impact with
      estimated_liability_cost := some 100 } }

/-- Fixture: every tier item satisfied. -/
def exClaimFull : OperationalLiabilityClaim :=
  { exClaimTier12 with
    operational_impact := { exClaimTier12.operational_impact with
      system_component := some "router" }
    evidence := { exClaimTier12.evidence with
      system_log_count := 2
      has_liability_assessment := true } }

/-- Selector for the three severity/cost mismatch messages. -/
def isSeverityCostContradiction : Contradiction → Bool
  | .severityCritLowCost _ => true
  | .severitySevereLowCost _ => true
  | .severityMinorHighCost _ => true
  | _ => false

/-- Whether the incident date of the claim carries a parsed timestamp (the only
channel through which the evaluation time can influence the report). -/
def hasParsedDate (claim : OperationalLiabilityClaim) : Bool :=
  match claim.incident.incident_date with
  | some (.parsed _) => true
  | _ => false

/-! ## Claim C1: compute_payout -/

/-- C1: compute_payout returns none exactly when the incident type is not
covered or the cost is absent or negative; otherwise it returns
min (max 0 (cost - deductible)) cap, with cap = limit_amount lowered by
the per-incident-type limit when defined (deductible before capping). -/
theorem c1_compute_payout (claim : OperationalLiabilityClaim) (policy : Policy) :
    (compute_payout claim policy = none ↔
      _claim_incident_type claim ∉ policy.covered_incident_types
        ∨ _claim_estimated_cost claim = none
        ∨ ∃ c, _claim_estimated_cost claim = some c ∧ c < 0)
    ∧ (∀ c : ℚ, _claim_estimated_cost claim = some c → 0 ≤ c →
        _claim_incident_type claim ∈ policy.covered_incident_types →
        compute_payout claim policy =
          some (min (max 0 (c - policy.deductible))
            (applicable_cap policy (_claim_incident_type claim)))) := by
  constructor
  · unfold compute_payout
    rcases hc : _claim_estimated_cost claim with _ | c <;>
      by_cases hmem : _claim_incident_type claim ∈ policy.covered_incident_types
    · simp [hmem]
    · simp [hmem]
    · by_cases hneg : c < 0 <;> simp [hmem, hneg]
    · simp [hmem]
  · intro c hc h0 hmem
    unfold compute_payout
    simp [hmem, hc, not_lt.mpr h0]

/-- Witness for C1 at the delay fixture (cost 3000, deductible 500). -/
theorem c1_compute_payout_witness :
    compute_payout exClaimBase exPolicyDelay =
      some (min (max 0 ((3000 : ℚ) - exPolicyDelay.deductible))
        (applicable_cap exPolicyDelay (_claim_incident_type exClaimBase))) :=
  (c1_compute_payout exClaimBase exPolicyDelay).2 3000 rfl (by norm_num) (by decide)

/-! ## Claim C6: payout monotonicity and cap -/

/-- The applicable cap never exceeds the policy limit (a per-type limit
is applied as a min, never a relaxation). -/
theorem applicable_cap_le (policy : Policy) (t : String) :
    applicable_cap policy t ≤ policy.limit_amount := by
  unfold applicable_cap
  split
  · split
    · exact min_le_left _ _
    · exact le_refl _
  · exact le_refl _

/-- C6: with all other fields fixed, the non-none payout is non-increasing
in the deductible, non-decreasing in the cost, and bounded by the
applicable cap (hence by limit_amount). -/
theorem c6_payout_monotonic (claim : OperationalLiabilityClaim) (policy : Policy) :
    (∀ d1 d2 p1 p2 : ℚ, d1 ≤ d2 →
        compute_payout claim { policy with deductible := d1 } = some p1 →
        compute_payout claim { policy with deductible := d2 } = some p2 →
        p2 ≤ p1)
    ∧ (∀ c1 c2 p1 p2 : ℚ, c1 ≤ c2 →
        compute_payout (setClaimCost claim (some c1)) policy = some p1 →
        compute_payout (setClaimCost claim (some c2)) policy = some p2 →
        p1 ≤ p2)
    ∧ (∀ p : ℚ, compute_payout claim policy = some p →
        p ≤ applicable_cap policy (_claim_incident_type claim)
          ∧ p ≤ policy.limit_amount) := by
  refine ⟨?_, ?_, ?_⟩
  · intro d1 d2 p1 p2 hd h1 h2
    unfold compute_payout at h1 h2
    rcases hc : _claim_estimated_cost claim with _ | c
    · simp [hc] at h1
    · simp [hc, applicable_cap] at h1 h2
      rcases h1 with ⟨-, -, h1⟩
      rcases h2 with ⟨-, -, h2⟩
      subst h1 h2
      gcongr
  · intro c1 c2 p1 p2 hc h1 h2
    unfold compute_payout at h1 h2
    simp [setClaimCost, _claim_estimated_cost, _claim_incident_type] at h1 h2
    rcases h1 with ⟨-, -, h1⟩
    rcases h2 with ⟨-, -, h2⟩
    subst h1 h2
    gcongr
  · intro p hp
    unfold compute_payout at hp
    rcases hc : _claim_estimated_cost claim with _ | c
    · simp [hc] at hp
    · simp [hc] at hp
      rcases hp with ⟨-, -, hp⟩
      subst hp
      exact ⟨min_le_right _ _,
        le_trans (min_le_right _ _) (applicable_cap_le policy _)⟩

/-- Witness for C6: at the delay fixture the payout 2500 is below the cap
and the limit. -/
theorem c6_payout_monotonic_witness :
    (2500 : ℚ) ≤ applicable_cap exPolicyDelay (_claim_incident_type exClaimBase)
      ∧ (2500 : ℚ) ≤ exPolicyDelay.limit_amount :=
  (c6_payout_monotonic exClaimBase exPolicyDelay).2.2 2500
    (by norm_num +decide [compute_payout, applicable_cap, _claim_estimated_cost,
      _claim_incident_type, exClaimBase, exPolicyDelay, IncidentType.toVal])

/-! ## Claim C5: verify_claimant_name -/

/-- C5 counterexample: with an empty `named_insured`, the normalized
insured name is a substring of the non-empty normalized claimant name,
yet verify_claimant_name returns false — the characterization in the claim
fails for such a policy. -/
theorem c5_counterexample :
    verify_claimant_name exPolicyNoInsured (some "acme") = false
    ∧ _normalize_name (some "acme") ≠ ""
    ∧ strContains (_normalize_name (some "acme"))
        (_normalize_name (some exPolicyNoInsured.named_insured)) = true := by
  decide

/-- C5 (amended): verify_claimant_name returns true iff the named_insured
of the policy is non-empty, the normalized claimant name is non-empty,
and the two normalized names are equal or one is a substring of the
other; it matches "acme corp" and "Acme" against "Acme Corp" and rejects
the empty claimant name. -/
theorem c5_verify_claimant_name (policy : Policy) (name : Option String) :
    (verify_claimant_name policy name =
      (policy.named_insured != ""
        && _normalize_name name != ""
        && (_normalize_name (some policy.named_insured) == _normalize_name name
          || strContains (_normalize_name (some policy.named_insured))
              (_normalize_name name)
          || strContains (_normalize_name name)
              (_normalize_name (some policy.named_insured)))))
    ∧ verify_claimant_name exPolicyDelay (some "acme corp") = true
    ∧ verify_claimant_name exPolicyDelay (some "Acme") = true
    ∧ verify_claimant_name exPolicyDelay (some "") = false := by
  refine ⟨?_, by decide, by decide, by decide⟩
  unfold verify_claimant_name
  by_cases h1 : policy.named_insured == "" <;>
    by_cases h2 : _normalize_name name == "" <;>
      simp_all

/-! ## Claim C3: can_auto_resolve -/

/-- C3: can_auto_resolve is false whenever fraud is flagged; otherwise it
is true iff every enabled gate holds: name verified when required,
incident type covered when required, cost (0 when absent) at most the
auto-resolve maximum, and no outstanding extra info when required. -/
theorem c3_can_auto_resolve (claim : OperationalLiabilityClaim) (policy : Policy)
    (name_verified fraud_flagged : Bool) :
    (fraud_flagged = true →
      can_auto_resolve claim policy name_verified fraud_flagged = false)
    ∧ (fraud_flagged = false →
      (can_auto_resolve claim policy name_verified fraud_flagged = true ↔
        (policy.resolution_rules.require_name_match = true → name_verified = true)
        ∧ (policy.resolution_rules.require_incident_type_covered = true →
            _claim_incident_type claim ∈ policy.covered_incident_types)
        ∧ (_claim_estimated_cost claim).getD 0
            ≤ policy.resolution_rules.auto_resolve_max_amount
        ∧ (policy.resolution_rules.require_evidence_complete = true →
            get_required_extra_info claim policy = []))) := by
  constructor
  · intro h
    simp [can_auto_resolve, h]
  · intro h
    subst h
    unfold can_auto_resolve
    split_ifs with h0 h1 h2 h3 h4 <;>
      simp_all [List.elem_iff, List.contains, List.isEmpty_iff, not_lt]

/-- Witness for C3 at the delay fixture (cost 3000 below the 5000
auto-resolve maximum, type covered, no extra-info rules). -/
theorem c3_can_auto_resolve_witness :
    can_auto_resolve exClaimBase exPolicyDelay true false = true :=
  ((c3_can_auto_resolve exClaimBase exPolicyDelay true false).2 rfl).mpr
    ⟨fun _ => rfl, fun _ => by decide, by norm_num +decide [_claim_estimated_cost,
      exClaimBase, exPolicyDelay], fun _ => by decide⟩

/-! ## Claim C4: get_required_extra_info -/

/-- The rule loop of get_required_extra_info emits, in rule order, one
prompt per required rule whose condition is satisfied and whose evidence
is absent. -/
theorem gatherRules_eq (t : String) (c : ℚ) (ev : EvidenceChecklist)
    (rules : List ExtraInfoRule) :
    gatherRules t c ev rules =
      (rules.filter (fun rule =>
        rule.required
        && !condSkips (pyLower rule.condition) t c
        && !evidenceAlreadyPresent ev rule.required_evidence)).map promptOf := by
  induction rules with
  | nil => rfl
  | cons rule rest ih =>
    by_cases h1 : rule.required <;>
      by_cases h2 : condSkips (pyLower rule.condition) t c <;>
        by_cases h3 : evidenceAlreadyPresent ev rule.required_evidence <;>
          simp [gatherRules, List.filter_cons, h1, h2, h3, ih]

/-- C4: get_required_extra_info walks the rules in order and emits one
prompt (question_hint, else a generated sentence) per required rule whose
condition holds and whose evidence is absent; the prediction_failure rule
prompts exactly once on a prediction_failure claim lacking the assessment
and not at all on a delay claim. -/
theorem c4_get_required_extra_info (claim : OperationalLiabilityClaim)
    (policy : Policy) :
    (get_required_extra_info claim policy =
      (policy.extra_info_rules.filter (fun rule =>
        rule.required
        && !condSkips (pyLower rule.condition) (_claim_incident_type claim)
            ((_claim_estimated_cost claim).getD 0)
        && !evidenceAlreadyPresent claim.evidence rule.required_evidence)).map
          promptOf)
    ∧ get_required_extra_info exClaimPF exPolicyPF =
        ["Please provide liability assessment."]
    ∧ get_required_extra_info exClaimBase exPolicyPF = [] :=
  ⟨gatherRules_eq _ _ _ _, by decide, by decide⟩

/-! ## Claim C10: unrecognized condition strings count as satisfied -/

/-- C10: a required rule whose lowercased condition matches neither
regex pattern is never skipped on account of its condition; its prompt is
emitted exactly when the named evidence is absent. -/
theorem c10_unmatched_condition (claim : OperationalLiabilityClaim)
    (policy : Policy) (rule : ExtraInfoRule)
    (hreq : rule.required = true)
    (h1 : searchIncidentTypeEq (pyLower rule.condition).toList = none)
    (h2 : searchGtNat (pyLower rule.condition).toList = none) :
    condSkips (pyLower rule.condition) (_claim_incident_type claim)
        ((_claim_estimated_cost claim).getD 0) = false
    ∧ get_required_extra_info claim { policy with extra_info_rules := [rule] } =
        (if evidenceAlreadyPresent claim.evidence rule.required_evidence then []
          else [promptOf rule]) := by
  have hskip : condSkips (pyLower rule.condition) (_claim_incident_type claim)
      ((_claim_estimated_cost claim).getD 0) = false := by
    simp only [String.toList] at h1 h2
    unfold condSkips
    split_ifs with hA hB
    · simp [h1]
    · simp [h2]
    · rfl
  refine ⟨hskip, ?_⟩
  unfold get_required_extra_info
  simp only [gatherRules, hreq, hskip]
  split_ifs with h <;> simp_all [gatherRules]

/-- Witness for C10: the prompt of the vague rule is emitted on the base claim
(which lacks an incident report). -/
theorem c10_unmatched_condition_witness :
    condSkips (pyLower exRuleVague.condition) (_claim_incident_type exClaimBase)
        ((_claim_estimated_cost exClaimBase).getD 0) = false
    ∧ get_required_extra_info exClaimBase
        { exPolicyDelay with extra_info_rules := [exRuleVague] } =
        (if evidenceAlreadyPresent exClaimBase.evidence exRuleVague.required_evidence
          then [] else [promptOf exRuleVague]) :=
  c10_unmatched_condition exClaimBase exPolicyDelay exRuleVague rfl
    (by decide) (by decide)

/-! ## Claim C2: tiered completeness score -/

/-- The tier-1 present list never holds more than its four items. -/
theorem tier1_present_length_le (claim : OperationalLiabilityClaim) :
    (tier1_present claim).length ≤ 4 := by
  unfold tier1_present
  split_ifs <;> simp

/-- The tier-2 present list never holds more than its three items. -/
theorem tier2_present_length_le (claim : OperationalLiabilityClaim) :
    (tier2_present claim).length ≤ 3 := by
  unfold tier2_present
  split_ifs <;> simp

/-- The tier-3 present list never holds more than its three items. -/
theorem tier3_present_length_le (claim : OperationalLiabilityClaim) :
    (tier3_present claim).length ≤ 3 := by
  unfold tier3_present
  split_ifs <;> simp

/-- Tier 1 contributes between 0 and its weight 0.6. -/
theorem tier1_score_bounds (claim : OperationalLiabilityClaim) :
    0 ≤ tier1_score claim ∧ tier1_score claim ≤ (0.6 : ℚ) := by
  have h4 : ((tier1_present claim).length : ℚ) ≤ 4 := by
    exact_mod_cast tier1_present_length_le claim
  have h0 : (0 : ℚ) ≤ ((tier1_present claim).length : ℚ) := by positivity
  unfold tier1_score
  constructor <;> nlinarith [h0, h4]

/-- Tier 2 contributes between 0 and its weight 0.3. -/
theorem tier2_score_bounds (claim : OperationalLiabilityClaim) :
    0 ≤ tier2_score claim ∧ tier2_score claim ≤ (0.3 : ℚ) := by
  have h3 : ((tier2_present claim).length : ℚ) ≤ 3 := by
    exact_mod_cast tier2_present_length_le claim
  have h0 : (0 : ℚ) ≤ ((tier2_present claim).length : ℚ) := by positivity
  unfold tier2_score
  constructor <;> nlinarith [h0, h3]

/-- Tier 3 contributes between 0 and its weight 0.1. -/
theorem tier3_score_bounds (claim : OperationalLiabilityClaim) :
    0 ≤ tier3_score claim ∧ tier3_score claim ≤ (0.1 : ℚ) := by
  have h3 : ((tier3_present claim).length : ℚ) ≤ 3 := by
    exact_mod_cast tier3_present_length_le claim
  have h0 : (0 : ℚ) ≤ ((tier3_present claim).length : ℚ) := by positivity
  unfold tier3_score
  constructor <;> nlinarith [h0, h3]

/-- C2: the completeness score is the sum of the three tier sub-scores
(each satisfied-count over item-count times the tier weight), lies in
[0,1], and takes the exact values 0.6, 0.9 and 1 on the three canonical
satisfaction patterns. -/
theorem c2_completeness_score (claim : OperationalLiabilityClaim) (now : Int) :
    ((check_claim claim now).completeness_score
        = tier1_score claim + tier2_score claim + tier3_score claim)
    ∧ 0 ≤ (check_claim claim now).completeness_score
    ∧ (check_claim claim now).completeness_score ≤ 1
    ∧ (satLogs claim = true → satDesc claim = true → satType claim = true →
        satAsset claim = true → satLoc claim = false → satCost claim = false →
        satDate claim = false → satAssess claim = false → satComp claim = false →
        satMulti claim = false →
        (check_claim claim now).completeness_score = (0.6 : ℚ))
    ∧ (satLogs claim = true → satDesc claim = true → satType claim = true →
        satAsset claim = true → satLoc claim = true → satCost claim = true →
        satDate claim = true → satAssess claim = false → satComp claim = false →
        satMulti claim = false →
        (check_claim claim now).completeness_score = (0.9 : ℚ))
    ∧ (satLogs claim = true → satDesc claim = true → satType claim = true →
        satAsset claim = true → satLoc claim = true → satCost claim = true →
        satDate claim = true → satAssess claim = true → satComp claim = true →
        satMulti claim = true →
        (check_claim claim now).completeness_score = 1) := by
  obtain ⟨h1a, h1b⟩ := tier1_score_bounds claim
  obtain ⟨h2a, h2b⟩ := tier2_score_bounds claim
  obtain ⟨h3a, h3b⟩ := tier3_score_bounds claim
  refine ⟨rfl, ?_, ?_, ?_, ?_, ?_⟩
  · show 0 ≤ tier1_score claim + tier2_score claim + tier3_score claim
    linarith
  · show tier1_score claim + tier2_score claim + tier3_score claim ≤ 1
    norm_num at h1b h2b h3b
    linarith
  · intro hL hD hT hA hLo hC hDa hAs hCo hM
    show tier1_score claim + tier2_score claim + tier3_score claim = (0.6 : ℚ)
    unfold tier1_score tier2_score tier3_score tier1_present tier2_present
      tier3_present
    rw [hL, hD, hT, hA, hLo, hC, hDa, hAs, hCo, hM]
    norm_num
  · intro hL hD hT hA hLo hC hDa hAs hCo hM
    show tier1_score claim + tier2_score claim + tier3_score claim = (0.9 : ℚ)
    unfold tier1_score tier2_score tier3_score tier1_present tier2_present
      tier3_present
    rw [hL, hD, hT, hA, hLo, hC, hDa, hAs, hCo, hM]
    norm_num
  · intro hL hD hT hA hLo hC hDa hAs hCo hM
    show tier1_score claim + tier2_score claim + tier3_score claim = 1
    unfold tier1_score tier2_score tier3_score tier1_present tier2_present
      tier3_present
    rw [hL, hD, hT, hA, hLo, hC, hDa, hAs, hCo, hM]
    norm_num

/-- Witness for C2: the three canonical fixtures score exactly 0.6, 0.9
and 1. -/
theorem c2_completeness_score_witness :
    (check_claim exClaimTier1 0).completeness_score = (0.6 : ℚ)
    ∧ (check_claim exClaimTier12 0).completeness_score = (0.9 : ℚ)
    ∧ (check_claim exClaimFull 0).completeness_score = 1 :=
  ⟨(c2_completeness_score exClaimTier1 0).2.2.2.1
      (by decide) (by decide) (by decide) (by decide) (by decide)
      (by decide) (by decide) (by decide) (by decide) (by decide),
    (c2_completeness_score exClaimTier12 0).2.2.2.2.1
      (by decide) (by decide) (by decide) (by decide) (by decide)
      (by decide) (by decide) (by decide) (by decide) (by decide),
    (c2_completeness_score exClaimFull 0).2.2.2.2.2
      (by decide) (by decide) (by decide) (by decide) (by decide)
      (by decide) (by decide) (by decide) (by decide) (by decide)⟩

/-! ## Membership in the contradiction list -/

/-- Membership in a conditional singleton segment. -/
theorem mem_ite_singleton {α : Type} {x a : α} {c : Prop} [Decidable c] :
    (x ∈ (if c then [a] else ([] : List α))) ↔ c ∧ x = a := by
  split_ifs with h <;> simp [h]

/-- Membership in the date segment of the contradiction list. -/
theorem mem_dateContradictions {x : Contradiction} {d : Option DateVal}
    {now : Int} :
    (x ∈ dateContradictions d now) ↔
      (∃ t : Int, d = some (.parsed t) ∧ now < t ∧ x = .dateInFuture t)
      ∨ (∃ t : Int, d = some (.parsed t) ∧ ¬now < t ∧ t < now - twoYears
          ∧ x = .dateTooOld t) := by
  rcases d with _ | dv
  · simp [dateContradictions]
  · rcases dv with t | s
    · simp only [dateContradictions]
      split_ifs with h1 h2 <;> simp_all
    · simp [dateContradictions]

/-- An absent option never equals a present one. -/
theorem noneEqSomeIff {α : Type} {a : α} : (none = some a) ↔ False :=
  ⟨fun h => Option.noConfusion h, False.elim⟩

/-- Full characterization of membership in the contradiction list: one
disjunct per checker rule, in source order. -/
theorem mem_contradictionsOf (claim : OperationalLiabilityClaim) (now : Int)
    (x : Contradiction) :
    x ∈ contradictionsOf claim now ↔
      (lowConf claim.incident.incident_type_provenance = true
        ∧ x = .lowConfIncidentType)
      ∨ (lowConf claim.operational_impact.asset_type_provenance = true
        ∧ x = .lowConfAssetType)
      ∨ (lowConf claim.incident.incident_description_provenance = true
        ∧ x = .lowConfDescription)
      ∨ (∃ c : ℚ, claim.operational_impact.estimated_liability_cost = some c
        ∧ claim.operational_impact.impact_severity = .critical ∧ c < 5000
        ∧ x = .severityCritLowCost c)
      ∨ (∃ c : ℚ, claim.operational_impact.estimated_liability_cost = some c
        ∧ claim.operational_impact.impact_severity = .severe ∧ c < 1000
        ∧ x = .severitySevereLowCost c)
      ∨ (∃ c : ℚ, claim.operational_impact.estimated_liability_cost = some c
        ∧ claim.operational_impact.impact_severity = .minor ∧ 50000 < c
        ∧ x = .severityMinorHighCost c)
      ∨ (claim.evidence.has_system_logs = false
        ∧ truthyStr claim.incident.incident_description = true
        ∧ x = .descriptionWithoutLogs)
      ∨ (∃ c : ℚ, claim.operational_impact.estimated_liability_cost = some c
        ∧ 25000 < c ∧ claim.evidence.has_liability_assessment = false
        ∧ x = .highCostNoAssessment c)
      ∨ (∃ t : Int, claim.incident.incident_date = some (.parsed t)
        ∧ now < t ∧ x = .dateInFuture t)
      ∨ (∃ t : Int, claim.incident.incident_date = some (.parsed t)
        ∧ ¬now < t ∧ t < now - twoYears ∧ x = .dateTooOld t)
      ∨ (truthyStr claim.incident.incident_location = true
        ∧ lowConf claim.incident.incident_location_provenance = true
        ∧ x = .lowConfLocation) := by
  rcases hc : claim.operational_impact.estimated_liability_cost with _ | c0 <;>
    simp only [contradictionsOf, hc, List.mem_append, mem_ite_singleton,
      mem_dateContradictions, Bool.and_eq_true, Bool.not_eq_true',
      beq_iff_eq, decide_eq_true_eq, Option.some.injEq, exists_eq_left',
      List.not_mem_nil, noneEqSomeIff, false_and, and_false, exists_false,
      or_false, false_or, and_assoc, or_assoc]

/-! ## Claim C7: severity/cost contradiction bands -/

/-- The date segment contains no severity/cost message. -/
theorem countP_sevCost_dateContradictions (d : Option DateVal) (now : Int) :
    (dateContradictions d now).countP
      (fun x => isSeverityCostContradiction x) = 0 := by
  rcases d with _ | dv
  · rfl
  · rcases dv with t | s
    · simp only [dateContradictions]
      split_ifs <;> rfl
    · rfl

/-- C7: the three severity/cost contradictions fire exactly on the fixed
bands (critical below 5000, severe below 1000, minor above 50000), an
absent cost never fires them, and a critical claim costing 2000 carries
exactly one severity/cost message whatever its other fields. -/
theorem c7_severity_cost_bands (claim : OperationalLiabilityClaim) (now : Int) :
    (∀ c : ℚ,
      Contradiction.severityCritLowCost c ∈ (check_claim claim now).contradictions
        ↔ claim.operational_impact.impact_severity = .critical
          ∧ claim.operational_impact.estimated_liability_cost = some c
          ∧ c < 5000)
    ∧ (∀ c : ℚ,
      Contradiction.severitySevereLowCost c ∈ (check_claim claim now).contradictions
        ↔ claim.operational_impact.impact_severity = .severe
          ∧ claim.operational_impact.estimated_liability_cost = some c
          ∧ c < 1000)
    ∧ (∀ c : ℚ,
      Contradiction.severityMinorHighCost c ∈ (check_claim claim now).contradictions
        ↔ claim.operational_impact.impact_severity = .minor
          ∧ claim.operational_impact.estimated_liability_cost = some c
          ∧ 50000 < c)
    ∧ (claim.operational_impact.estimated_liability_cost = none →
        ∀ c : ℚ,
          Contradiction.severityCritLowCost c ∉ (check_claim claim now).contradictions
          ∧ Contradiction.severitySevereLowCost c ∉ (check_claim claim now).contradictions
          ∧ Contradiction.severityMinorHighCost c ∉ (check_claim claim now).contradictions)
    ∧ (claim.operational_impact.impact_severity = .critical →
        claim.operational_impact.estimated_liability_cost = some 2000 →
        (check_claim claim now).contradictions.countP
          (fun x => isSeverityCostContradiction x) = 1) := by
  refine ⟨?_, ?_, ?_, ?_, ?_⟩
  · intro c
    rw [show (check_claim claim now).contradictions = contradictionsOf claim now
      from rfl, mem_contradictionsOf]
    constructor
    · rintro (⟨-, h⟩ | ⟨-, h⟩ | ⟨-, h⟩ | ⟨c', h1, h2, h3, h4⟩ | ⟨c', -, -, -, h⟩
        | ⟨c', -, -, -, h⟩ | ⟨-, -, h⟩ | ⟨c', -, -, -, h⟩ | ⟨t, -, -, h⟩
        | ⟨t, -, -, -, h⟩ | ⟨-, -, h⟩) <;> first
      | exact absurd h (by simp)
      | (obtain rfl : c = c' := by injection h4
         exact ⟨h2, h1, h3⟩)
    · rintro ⟨hsev, hcost, hband⟩
      exact Or.inr (Or.inr (Or.inr (Or.inl ⟨c, hcost, hsev, hband, rfl⟩)))
  · intro c
    rw [show (check_claim claim now).contradictions = contradictionsOf claim now
      from rfl, mem_contradictionsOf]
    constructor
    · rintro (⟨-, h⟩ | ⟨-, h⟩ | ⟨-, h⟩ | ⟨c', -, -, -, h⟩ | ⟨c', h1, h2, h3, h4⟩
        | ⟨c', -, -, -, h⟩ | ⟨-, -, h⟩ | ⟨c', -, -, -, h⟩ | ⟨t, -, -, h⟩
        | ⟨t, -, -, -, h⟩ | ⟨-, -, h⟩) <;> first
      | exact absurd h (by simp)
      | (obtain rfl : c = c' := by injection h4
         exact ⟨h2, h1, h3⟩)
    · rintro ⟨hsev, hcost, hband⟩
      exact Or.inr (Or.inr (Or.inr (Or.inr (Or.inl ⟨c, hcost, hsev, hband, rfl⟩))))
  · intro c
    rw [show (check_claim claim now).contradictions = contradictionsOf claim now
      from rfl, mem_contradictionsOf]
    constructor
    · rintro (⟨-, h⟩ | ⟨-, h⟩ | ⟨-, h⟩ | ⟨c', -, -, -, h⟩ | ⟨c', -, -, -, h⟩
        | ⟨c', h1, h2, h3, h4⟩ | ⟨-, -, h⟩ | ⟨c', -, -, -, h⟩ | ⟨t, -, -, h⟩
        | ⟨t, -, -, -, h⟩ | ⟨-, -, h⟩) <;> first
      | exact absurd h (by simp)
      | (obtain rfl : c = c' := by injection h4
         exact ⟨h2, h1, h3⟩)
    · rintro ⟨hsev, hcost, hband⟩
      exact Or.inr (Or.inr (Or.inr (Or.inr (Or.inr (Or.inl
        ⟨c, hcost, hsev, hband, rfl⟩)))))
  · intro hnone c
    rw [show (check_claim claim now).contradictions = contradictionsOf claim now
      from rfl] at *
    refine ⟨?_, ?_, ?_⟩ <;>
      { rw [mem_contradictionsOf]
        rintro (⟨-, h⟩ | ⟨-, h⟩ | ⟨-, h⟩ | ⟨c', h1, -⟩ | ⟨c', h1, -⟩
          | ⟨c', h1, -⟩ | ⟨-, -, h⟩ | ⟨c', h1, -⟩ | ⟨t, -, -, h⟩
          | ⟨t, -, -, -, h⟩ | ⟨-, -, h⟩) <;> first
        | exact absurd h (by simp)
        | exact absurd h1 (by simp [hnone]) }
  · intro hsev hcost
    show (contradictionsOf claim now).countP _ = 1
    unfold contradictionsOf
    rw [hcost]
    simp only [hsev, List.countP_append, countP_sevCost_dateContradictions,
      apply_ite (List.countP (fun x => isSeverityCostContradiction x))]
    norm_num [List.countP_cons, isSeverityCostContradiction]

/-- Witness for C7: a critical-severity claim costing 2000 carries exactly
one severity/cost contradiction. -/
theorem c7_severity_cost_bands_witness :
    (check_claim
      { exClaimTier1 with operational_impact :=
          { exClaimTier1.operational_impact with
            impact_severity := .critical
            estimated_liability_cost := some 2000 } } 0).contradictions.countP
      (fun x => isSeverityCostContradiction x) = 1 :=
  (c7_severity_cost_bands _ 0).2.2.2.2 rfl rfl

/-! ## Claim C8: date handling (a defect of the source) -/

/-- C8: the claim rightly demands that check_claim never raise, treating
an unparseable date string as absent for the date check, and that every
parseable date in the future or older than 730 days produce a flag; the
code falls short of it.  For a date string `datetime.fromisoformat`
accepts that carries a non-UTC offset (only `Z` and `+00:00` are stripped
before parsing), checker.py line 220 compares the resulting offset-aware
datetime with the naive `datetime.utcnow()` and raises TypeError — the
try/except of lines 213-217 guards only the parse.  Over the faithful
block model `dateContradictionsX`: the offset-aware input errors instead
of flagging, while a naive future date, a naive stale date and an
unparseable string behave exactly as the claim describes. -/
theorem c8_typeerror_on_aware_date :
    dateContradictionsX (some (.aware 4070908800)) 0
      = Except.error
          "TypeError: cannot compare offset-naive and offset-aware datetimes"
    ∧ dateContradictionsX (some (.naive 1000)) 0
      = Except.ok [Contradiction.dateInFuture 1000]
    ∧ dateContradictionsX (some (.naive (-70000000))) 0
      = Except.ok [Contradiction.dateTooOld (-70000000)]
    ∧ dateContradictionsX (some (.unparseable "sometime last week")) 0
      = Except.ok [] :=
  ⟨rfl, rfl, rfl, rfl⟩

/-! ## Claim C9: determinism and the evaluation-time input -/

/-- C9 counterexample: the report depends on the evaluation time
(`datetime.utcnow()` in the source), so check_claim is not a function of
the claim alone — the same claim yields different reports at evaluation
times 50 and 2000. -/
theorem c9_counterexample :
    check_claim exClaimBase 50 ≠ check_claim exClaimBase 2000 := by
  intro h
  have h2 := congrArg CheckReport.contradictions h
  simp only [check_claim] at h2
  have hmem : Contradiction.dateInFuture 1000 ∈ contradictionsOf exClaimBase 50 := by
    rw [mem_contradictionsOf]
    exact Or.inr (Or.inr (Or.inr (Or.inr (Or.inr (Or.inr (Or.inr (Or.inr
      (Or.inl ⟨1000, rfl, by norm_num, rfl⟩))))))))
  rw [h2, mem_contradictionsOf] at hmem
  norm_num +decide [exClaimBase, noProv, lowConf, truthyStr, twoYears] at hmem

/-- C9 (amended): check_claim is a pure deterministic function of the
claim and the evaluation time; when the claim carries no parseable
incident date the report does not depend on the evaluation time at all. -/
theorem c9_now_independent (claim : OperationalLiabilityClaim) (n n' : Int)
    (h : hasParsedDate claim = false) :
    check_claim claim n = check_claim claim n' := by
  have hd : dateContradictions claim.incident.incident_date n
      = dateContradictions claim.incident.incident_date n' := by
    unfold hasParsedDate at h
    rcases hdd : claim.incident.incident_date with _ | dv
    · rfl
    · rcases dv with t | s
      · rw [hdd] at h
        simp at h
      · rfl
  simp [check_claim, contradictionsOf, hd]

/-- Witness for C9 (amended) at a claim with no incident date. -/
theorem c9_now_independent_witness :
    check_claim exClaimTier1 0 = check_claim exClaimTier1 999999 :=
  c9_now_independent exClaimTier1 0 999999 rfl

end RexAI
